import Mathlib

/-!
Verification development for the `sync-physics` CFD core
(`sync-cfd/api/simulations/cfd.py`).

Embedding conventions:
* numpy float arrays are embedded as rational-valued grids
  `Grid := ℕ → ℕ → ℚ`, indexed `g r c` with `r` the row (y) and `c` the
  column (x), exactly as in the source (`self.u[j, i]`).  Claims quantify
  indices over `r < ny`, `c < nx`.
* IEEE special values (NaN, ±Inf) do not exist in `ℚ`; where a claim is
  about them (`np.nan_to_num`, `np.clip` on non-finite input) we use the
  extended value type `FVal` below, which represents a float as either a
  finite rational or one of the three special values.
* Python's `int(...)` truncates toward zero; embedded as `pyInt`.
* Python/numpy slice and negative-index semantics are embedded explicitly
  (`pySliceLo`, and the wrap-around in the streamline tracer).
-/

namespace SyncCFD

/-- A 2-D float array, as in the source a row-major `(ny, nx)` grid,
value at row `r` (y index) and column `c` (x index). -/
abbrev Grid := ℕ → ℕ → ℚ

/-- A boolean mask grid (`self.obstacle_mask`). -/
abbrev BGrid := ℕ → ℕ → Bool

/-- Python `int(q)`: truncation toward zero. -/
def pyInt (q : ℚ) : ℤ := if 0 ≤ q then ⌊q⌋ else ⌈q⌉

/-- Kernel-reducible `max` on `ℚ` (Mathlib's lattice `max` does not
reduce definitionally; this is extensionally `max`, see `qmax_eq`). -/
def qmax (a b : ℚ) : ℚ := if a ≤ b then b else a

/-- Kernel-reducible `min` on `ℚ` (extensionally `min`, see `qmin_eq`). -/
def qmin (a b : ℚ) : ℚ := if a ≤ b then a else b

/-- `SimulationConfig` from the source (the `name` field is only used to
build manager ids and is kept in the manager model instead). -/
structure SimulationConfig where
  grid_size_x : ℕ := 200
  grid_size_y : ℕ := 80
  inlet_velocity : ℚ := 1
  fluid_density : ℚ := 1
  viscosity : ℚ := 1 / 100
  time_steps : ℕ := 1000
  dt : ℚ := 1 / 1000
  obstacle_type : String := "cylinder"
  obstacle_position : ℚ × ℚ := (1/4, 1/2)
  obstacle_size : ℚ := 1/10
  use_adaptive_dt : Bool := true
  cfl_number : ℚ := 1/2

namespace SimulationConfig

/-- `self.dx = 1.0 / self.nx`. -/
def dx (cfg : SimulationConfig) : ℚ := 1 / cfg.grid_size_x

/-- `self.dy = 1.0 / self.ny`. -/
def dy (cfg : SimulationConfig) : ℚ := 1 / cfg.grid_size_y

/-- Kinematic viscosity `nu = viscosity / density` used in `step`. -/
def nu (cfg : SimulationConfig) : ℚ := cfg.viscosity / cfg.fluid_density

/-- `max_allowed_velocity = 10.0 * inlet_velocity` from
`_apply_stability_limits`. -/
def maxAllowed (cfg : SimulationConfig) : ℚ := 10 * cfg.inlet_velocity

end SimulationConfig

/-- The mutable per-instance state of `CFDSimulation` (the flow fields,
the obstacle mask, the clock).  `max_velocity` in the source is
`np.max(np.sqrt(u**2 + v**2))`; since `ℚ` has no square root we track the
squared quantity `maxVelSq = np.max(u**2 + v**2)` (order-isomorphic, and
no claim depends on it). -/
structure SimState where
  u : Grid
  v : Grid
  p : Grid
  vorticity : Grid
  mask : BGrid
  dt : ℚ
  current_step : ℕ
  current_time : ℚ
  maxVelSq : ℚ

/-! ### Obstacle builder (`_create_obstacle`)

`cx = int(pos_x * nx)`, `cy = int(pos_y * ny)`,
`radius = int(size * min(nx, ny))`.  The `cylinder` case tests
`sqrt((x-cx)^2 + (y-cy)^2) <= radius`, which over the reals is equivalent
to `0 ≤ radius ∧ (x-cx)^2 + (y-cy)^2 ≤ radius^2`; we embed that
equivalent form since `ℚ` has no square root.  The `square` case is a
Python slice assignment `mask[cy-radius:cy+radius, cx-radius:cx+radius] = True`
on an all-`False` grid, so we embed Python's slice-bound resolution
exactly.  The `airfoil` case uses `cos(π/6)` and `sin(π/6)`, which are
irrational; no claim needs its exact geometry, and the step theorems
below quantify over an arbitrary mask, which covers it. -/

/-- Resolution of one bound of a Python slice `a` over an axis of length
`len`: negative bounds count from the end, then the result is clamped to
`[0, len]`. -/
def pySliceLo (len : ℕ) (a : ℤ) : ℤ :=
  if a < 0 then max (a + len) 0 else min a len

/-- Membership of index `idx` in the Python slice `a : b` of an axis of
length `len` (step 1). -/
def inPySlice (len : ℕ) (a b : ℤ) (idx : ℕ) : Bool :=
  decide (pySliceLo len a ≤ (idx : ℤ) ∧ (idx : ℤ) < pySliceLo len b)

/-- `cx` of the obstacle. -/
def obstacleCx (cfg : SimulationConfig) : ℤ :=
  pyInt (cfg.obstacle_position.1 * cfg.grid_size_x)

/-- `cy` of the obstacle. -/
def obstacleCy (cfg : SimulationConfig) : ℤ :=
  pyInt (cfg.obstacle_position.2 * cfg.grid_size_y)

/-- `radius` of the obstacle. -/
def obstacleRadius (cfg : SimulationConfig) : ℤ :=
  pyInt (cfg.obstacle_size * min cfg.grid_size_x cfg.grid_size_y)

/-- The `cylinder` branch of `_create_obstacle`:
`dist <= radius` with `dist = sqrt((x-cx)^2 + (y-cy)^2)`. -/
def cylinderMask (cfg : SimulationConfig) : BGrid := fun r c =>
  decide (0 ≤ obstacleRadius cfg ∧
    ((c : ℤ) - obstacleCx cfg) ^ 2 + ((r : ℤ) - obstacleCy cfg) ^ 2 ≤
      obstacleRadius cfg ^ 2)

/-- The `square` branch of `_create_obstacle`:
`mask[cy-radius:cy+radius, cx-radius:cx+radius] = True` on an all-`False`
grid, with Python slice semantics. -/
def squareMask (cfg : SimulationConfig) : BGrid := fun r c =>
  inPySlice cfg.grid_size_y (obstacleCy cfg - obstacleRadius cfg)
      (obstacleCy cfg + obstacleRadius cfg) r &&
    inPySlice cfg.grid_size_x (obstacleCx cfg - obstacleRadius cfg)
      (obstacleCx cfg + obstacleRadius cfg) c

/-- `CFDSimulation.__init__`: `u` is filled with the inlet velocity
(everywhere, obstacle cells included), `v`, `p`, `vorticity` are zero,
`current_step = 0`, `current_time = 0.0`, `dt = config.dt`,
`max_velocity = config.inlet_velocity`.  The obstacle mask is the
`_create_obstacle` output; it is passed as an argument so that theorems
can quantify over every obstacle kind (see the note on `airfoil`
above). -/
def initState (cfg : SimulationConfig) (mask : BGrid) : SimState where
  u := fun _ _ => cfg.inlet_velocity
  v := fun _ _ => 0
  p := fun _ _ => 0
  vorticity := fun _ _ => 0
  mask := mask
  dt := cfg.dt
  current_step := 0
  current_time := 0
  maxVelSq := cfg.inlet_velocity ^ 2

/-! ### Differential operators

`np.gradient(f, h, axis=...)` uses central differences in the interior
and first-order one-sided differences at the two edges.  The Laplacian in
`step` is the 5-point stencil on interior cells, zero elsewhere
(`laplacian_u = np.zeros_like(...)` then only `[1:-1,1:-1]` filled). -/

/-- `np.gradient(g, dx, axis=1)` (derivative along columns / x). -/
def gradX (nx : ℕ) (dx : ℚ) (g : Grid) : Grid := fun r c =>
  if c = 0 then (g r 1 - g r 0) / dx
  else if c = nx - 1 then (g r (nx - 1) - g r (nx - 2)) / dx
  else (g r (c + 1) - g r (c - 1)) / (2 * dx)

/-- `np.gradient(g, dy, axis=0)` (derivative along rows / y). -/
def gradY (ny : ℕ) (dy : ℚ) (g : Grid) : Grid := fun r c =>
  if r = 0 then (g 1 c - g 0 c) / dy
  else if r = ny - 1 then (g (ny - 1) c - g (ny - 2) c) / dy
  else (g (r + 1) c - g (r - 1) c) / (2 * dy)

/-- The 5-point Laplacian of `step` (interior cells only, zero on the
boundary rows/columns). -/
def laplacianOf (ny nx : ℕ) (dx dy : ℚ) (g : Grid) : Grid := fun r c =>
  if 1 ≤ r ∧ r + 1 < ny ∧ 1 ≤ c ∧ c + 1 < nx then
    (g r (c + 1) - 2 * g r c + g r (c - 1)) / dx ^ 2 +
      (g (r + 1) c - 2 * g r c + g (r - 1) c) / dy ^ 2
  else 0

/-! ### Stability guard (`_apply_stability_limits`)

`np.clip(x, -M, M)` is `np.minimum(M, np.maximum(x, -M))`.  On the `ℚ`
embedding every value is finite, so the `np.nan_to_num` calls are the
identity; their NaN/Inf behaviour is modelled separately on `FVal`
below (claim C3). -/

/-- `np.clip(x, lo, hi) = min(hi, max(x, lo))` on finite values. -/
def clipQ (lo hi x : ℚ) : ℚ := qmin hi (qmax x lo)

/-- Clip a whole grid to `[-M, M]`. -/
def clipGrid (M : ℚ) (g : Grid) : Grid := fun r c => clipQ (-M) M (g r c)

/-- `np.nan_to_num` on a finite-valued (`ℚ`) grid is the identity. -/
def nanToNumQ (g : Grid) : Grid := g

/-- `_apply_stability_limits` on the `ℚ` embedding: clip `u` and `v` to
`±10·inlet_velocity`; the subsequent `nan_to_num` calls (including the
one on `p`) are the identity on finite values. -/
def stabilityU (cfg : SimulationConfig) (g : Grid) : Grid :=
  nanToNumQ (clipGrid cfg.maxAllowed g)

/-! ### Adaptive timestep (`_calculate_cfl_timestep`)

`np.max(np.abs(g))` over the `(ny, nx)` grid; absolute values are
nonnegative so folding `max` from `0` agrees with numpy's maximum on any
nonempty grid. -/

/-- `np.max(np.abs(g))` over the grid. -/
def maxAbsGrid (ny nx : ℕ) (g : Grid) : ℚ :=
  ((List.range ny).flatMap fun r => (List.range nx).map fun c => |g r c|).foldr max 0

/-- The `1e-10` epsilon of `_calculate_cfl_timestep`. -/
def eps10 : ℚ := 1 / 10000000000

/-- `_calculate_cfl_timestep`.  The `hasattr(self, 'dt')` test is always
true after `__init__` (which sets `self.dt`), so the rate-limiting
branch always runs. -/
def calcCflTimestep (cfg : SimulationConfig) (s : SimState) : ℚ :=
  let nu := cfg.nu
  let max_u := maxAbsGrid cfg.grid_size_y cfg.grid_size_x s.u + eps10
  let max_v := maxAbsGrid cfg.grid_size_y cfg.grid_size_x s.v + eps10
  let dt_conv := cfg.cfl_number * qmin (cfg.dx / max_u) (cfg.dy / max_v)
  let dt_visc := 1/4 * qmin (cfg.dx ^ 2) (cfg.dy ^ 2) / (nu + eps10)
  let dt_max := qmin dt_conv dt_visc
  let dt_max' := qmin dt_max (12/10 * s.dt)
  let dt_max'' := qmax dt_max' (5/10 * s.dt)
  qmin dt_max'' cfg.dt

/-- The `dt` used by one call to `step`: adaptive if enabled, else the
configured ceiling. -/
def dtOf (cfg : SimulationConfig) (s : SimState) : ℚ :=
  if cfg.use_adaptive_dt then calcCflTimestep cfg s else cfg.dt

/-! ### Boundary conditions

Each numpy slice assignment of `_apply_boundary_conditions` becomes one
grid transformer; the sequential in-place updates become function
composition in source order (inlet, outlet, walls, obstacle — so the
obstacle override is outermost and wins on overlap; the walls override
the inlet column at the corner rows). -/

/-- `self.u[:, 0] = inlet_velocity`. -/
def bcInletU (cfg : SimulationConfig) (g : Grid) : Grid := fun r c =>
  if c = 0 then cfg.inlet_velocity else g r c

/-- `self.v[:, 0] = 0`. -/
def bcInletV (g : Grid) : Grid := fun r c =>
  if c = 0 then 0 else g r c

/-- `g[:, -1] = g[:, -2]` (zero-gradient outlet; the right-hand side is
read from the grid as it stands when the assignment executes). -/
def bcOutlet (nx : ℕ) (g : Grid) : Grid := fun r c =>
  if c = nx - 1 then g r (nx - 2) else g r c

/-- `self.p[:, -1] = 0`. -/
def bcPOutlet (nx : ℕ) (g : Grid) : Grid := fun r c =>
  if c = nx - 1 then 0 else g r c

/-- `g[0, :] = 0` followed by `g[-1, :] = 0` (no-slip walls). -/
def bcWalls (ny : ℕ) (g : Grid) : Grid := fun r c =>
  if r = 0 ∨ r = ny - 1 then 0 else g r c

/-- `g[obstacle_mask] = 0`. -/
def bcObstacle (mask : BGrid) (g : Grid) : Grid := fun r c =>
  if mask r c then 0 else g r c

/-- `_apply_boundary_conditions` on `u`: inlet, then outlet, then walls,
then obstacle. -/
def applyBcU (cfg : SimulationConfig) (mask : BGrid) (g : Grid) : Grid :=
  bcObstacle mask (bcWalls cfg.grid_size_y (bcOutlet cfg.grid_size_x (bcInletU cfg g)))

/-- `_apply_boundary_conditions` on `v`. -/
def applyBcV (cfg : SimulationConfig) (mask : BGrid) (g : Grid) : Grid :=
  bcObstacle mask (bcWalls cfg.grid_size_y (bcOutlet cfg.grid_size_x (bcInletV g)))

/-- `_apply_boundary_conditions` on `p` (only the outlet column is
touched). -/
def applyBcP (cfg : SimulationConfig) (g : Grid) : Grid :=
  bcPOutlet cfg.grid_size_x g

/-! ### Predictor (`step`, lines 209–251)

`u_old = self.u.copy()` and `v_old = self.v.copy()` are taken BEFORE
`_apply_stability_limits()` reassigns `self.u`/`self.v`; the gradients
and Laplacians are then computed from the reassigned (guarded) fields,
while the additive base term and the advective coefficients come from
the pre-guard copies.  This ordering is embedded verbatim (claim C5 is
about it). -/

/-- The intermediate velocity `u_star` of `step` before its boundary
block: `u_old - dt*(u_old*dudx + v_old*dudy) + nu*dt*laplacian_u`, where
`dudx`, `dudy`, `laplacian_u` are taken on the guarded field but
`u_old`, `v_old` are the pre-guard copies. -/
def uStarOf (cfg : SimulationConfig) (s : SimState) : Grid := fun r c =>
  let dt := dtOf cfg s
  let uG := stabilityU cfg s.u
  s.u r c -
      dt * (s.u r c * gradX cfg.grid_size_x cfg.dx uG r c +
        s.v r c * gradY cfg.grid_size_y cfg.dy uG r c) +
    cfg.nu * dt * laplacianOf cfg.grid_size_y cfg.grid_size_x cfg.dx cfg.dy uG r c

/-- The intermediate velocity `v_star` of `step` before its boundary
block (symmetric to `uStarOf`). -/
def vStarOf (cfg : SimulationConfig) (s : SimState) : Grid := fun r c =>
  let dt := dtOf cfg s
  let vG := stabilityU cfg s.v
  s.v r c -
      dt * (s.u r c * gradX cfg.grid_size_x cfg.dx vG r c +
        s.v r c * gradY cfg.grid_size_y cfg.dy vG r c) +
    cfg.nu * dt * laplacianOf cfg.grid_size_y cfg.grid_size_x cfg.dx cfg.dy vG r c

/-- The boundary block applied to `u_star` inside `step` (source order:
obstacle, inlet, walls; no outlet copy here). -/
def uStarBC (cfg : SimulationConfig) (s : SimState) : Grid :=
  bcWalls cfg.grid_size_y (bcInletU cfg (bcObstacle s.mask (uStarOf cfg s)))

/-- The boundary block applied to `v_star` inside `step`. -/
def vStarBC (cfg : SimulationConfig) (s : SimState) : Grid :=
  bcWalls cfg.grid_size_y (bcInletV (bcObstacle s.mask (vStarOf cfg s)))

/-- `divergence = (np.gradient(u_star, dx, axis=1) + np.gradient(v_star, dy, axis=0)) / dt`. -/
def divergenceOf (cfg : SimulationConfig) (s : SimState) : Grid := fun r c =>
  (gradX cfg.grid_size_x cfg.dx (uStarBC cfg s) r c +
      gradY cfg.grid_size_y cfg.dy (vStarBC cfg s) r c) / dtOf cfg s

/-! ### Pressure Poisson solver (`_solve_pressure_poisson`)

The source keeps two buffers: `p` (read) and `p_new` (written).  Each
iteration overwrites the interior of `p_new` from `p`, then applies the
pressure boundary conditions in order (left ← column 1, right ← 0,
top ← row 1, bottom ← row `ny-2`, each reading `p_new` as it stands),
zeroes the obstacle cells, and copies `p_new` into `p`.  The buffer
`p_new` is NOT re-zeroed between iterations, so cells it leaves
untouched carry the previous iteration's values; we embed the two-buffer
structure verbatim. -/

/-- The four-neighbour-average-minus-divergence cell formula
`0.25*(p[r,c+1] + p[r,c-1] + p[r+1,c] + p[r-1,c] - dx*dy*rho*div[r,c])`
shared by the source sweep and the specification-side sweep. -/
def jacobiCell (dx dy rho : ℚ) (dv p : Grid) (r c : ℕ) : ℚ :=
  1/4 * (p r (c + 1) + p r (c - 1) + p (r + 1) c + p (r - 1) c -
    dx * dy * rho * dv r c)

/-- The interior Jacobi update: `p_new[1:-1,1:-1] = 0.25*(p[1:-1,2:] +
p[1:-1,:-2] + p[2:,1:-1] + p[:-2,1:-1] - dx*dy*rho*div[1:-1,1:-1])`,
cells outside the interior keep the buffer `pn`'s values. -/
def jacobiInterior (ny nx : ℕ) (dx dy rho : ℚ) (dv p pn : Grid) : Grid := fun r c =>
  if 1 ≤ r ∧ r + 1 < ny ∧ 1 ≤ c ∧ c + 1 < nx then
    jacobiCell dx dy rho dv p r c
  else pn r c

/-- `p_new[:, 0] = p_new[:, 1]`. -/
def pBcLeft (g : Grid) : Grid := fun r c => if c = 0 then g r 1 else g r c

/-- `p_new[0, :] = p_new[1, :]`. -/
def pBcTop (g : Grid) : Grid := fun r c => if r = 0 then g 1 c else g r c

/-- `p_new[-1, :] = p_new[-2, :]`. -/
def pBcBottom (ny : ℕ) (g : Grid) : Grid := fun r c =>
  if r = ny - 1 then g (ny - 2) c else g r c

/-- One loop body of `_solve_pressure_poisson`: interior update from `p`
into the buffer `pn`, then the four pressure boundary conditions in
source order, then obstacle zeroing. -/
def jacobiSweep (ny nx : ℕ) (dx dy rho : ℚ) (mask : BGrid) (dv p pn : Grid) : Grid :=
  bcObstacle mask (pBcBottom ny (pBcTop (bcPOutlet nx (pBcLeft
    (jacobiInterior ny nx dx dy rho dv p pn)))))

/-- The iteration loop: after each sweep `p := p_new.copy()`, and the
written buffer keeps its contents into the next iteration. -/
def jacobiLoop (ny nx : ℕ) (dx dy rho : ℚ) (mask : BGrid) (dv : Grid) :
    ℕ → Grid × Grid → Grid
  | 0, st => st.1
  | n + 1, st =>
      let p' := jacobiSweep ny nx dx dy rho mask dv st.1 st.2
      jacobiLoop ny nx dx dy rho mask dv n (p', p')

/-- `_solve_pressure_poisson(divergence, iterations)`: warm start `p =
self.p.copy()`, write buffer `p_new = np.zeros_like(p)`. -/
def solvePressurePoisson (ny nx : ℕ) (dx dy rho : ℚ) (mask : BGrid)
    (p0 dv : Grid) (iterations : ℕ) : Grid :=
  jacobiLoop ny nx dx dy rho mask dv iterations (p0, fun _ _ => 0)

/-- The pressure field computed inside `step`
(`self.p = self._solve_pressure_poisson(divergence, iterations=30)`),
warm-started from the current pressure (which `_apply_stability_limits`
has just passed through `nan_to_num`, the identity on finite values). -/
def pressureOf (cfg : SimulationConfig) (s : SimState) : Grid :=
  solvePressurePoisson cfg.grid_size_y cfg.grid_size_x cfg.dx cfg.dy
    cfg.fluid_density s.mask s.p (divergenceOf cfg s) 30

/-! ### Corrector and the full step -/

/-- `self.u = u_star - dt * dpdx / rho` (corrector). -/
def uCorrOf (cfg : SimulationConfig) (s : SimState) : Grid := fun r c =>
  uStarBC cfg s r c -
    dtOf cfg s * gradX cfg.grid_size_x cfg.dx (pressureOf cfg s) r c / cfg.fluid_density

/-- `self.v = v_star - dt * dpdy / rho` (corrector). -/
def vCorrOf (cfg : SimulationConfig) (s : SimState) : Grid := fun r c =>
  vStarBC cfg s r c -
    dtOf cfg s * gradY cfg.grid_size_y cfg.dy (pressureOf cfg s) r c / cfg.fluid_density

/-- `CFDSimulation.step()`: adaptive dt, stability guard on the stored
field, predictor, predictor boundary block, pressure solve (30 sweeps),
corrector, `_apply_boundary_conditions`, `_apply_stability_limits`,
vorticity, bookkeeping. -/
def stepFn (cfg : SimulationConfig) (s : SimState) : SimState :=
  let dt := dtOf cfg s
  let uBC := applyBcU cfg s.mask (uCorrOf cfg s)
  let vBC := applyBcV cfg s.mask (vCorrOf cfg s)
  let pBC := applyBcP cfg (pressureOf cfg s)
  -- final `_apply_stability_limits`: clip u, v; nan_to_num is the identity on ℚ
  let uF := clipGrid cfg.maxAllowed uBC
  let vF := clipGrid cfg.maxAllowed vBC
  let pF := nanToNumQ pBC
  { u := uF
    v := vF
    p := pF
    vorticity := fun r c =>
      gradX cfg.grid_size_x cfg.dx vF r c - gradY cfg.grid_size_y cfg.dy uF r c
    mask := s.mask
    dt := dt
    current_step := s.current_step + 1
    current_time := s.current_time + dt
    maxVelSq := maxAbsGrid cfg.grid_size_y cfg.grid_size_x
      (fun r c => uF r c ^ 2 + vF r c ^ 2) }

/-! ### Extended values for NaN/Inf (claim C3)

`_apply_stability_limits` exists precisely to remove NaN/Inf, which have
no counterpart in `ℚ`.  `FVal` represents a float as finite-or-special;
`np.clip` propagates NaN and clamps infinities, `np.nan_to_num(x, nan=a,
posinf=b, neginf=c)` replaces the specials and keeps finite values. -/

/-- A float value: finite rational or one of the IEEE specials. -/
inductive FVal where
  | fin (q : ℚ)
  | nan
  | pinf
  | ninf
deriving DecidableEq

/-- `np.clip(x, lo, hi) = min(hi, max(x, lo))` on extended values: NaN
propagates, `+Inf` clamps to `hi`, `-Inf` clamps to `min hi lo`. -/
def clipF (lo hi : ℚ) : FVal → FVal
  | .fin q => .fin (qmin hi (qmax q lo))
  | .nan => .nan
  | .pinf => .fin hi
  | .ninf => .fin (qmin hi lo)

/-- `np.nan_to_num(x, nan=a, posinf=b, neginf=c)`. -/
def nanToNumF (a b c : ℚ) : FVal → FVal
  | .fin q => .fin q
  | .nan => .fin a
  | .pinf => .fin b
  | .ninf => .fin c

/-- `_apply_stability_limits` on one `u`/`v` entry, on extended values:
clip to `±max_allowed`, then `nan_to_num(nan=0, posinf=max_allowed,
neginf=-max_allowed)`. -/
def stabilityFUV (cfg : SimulationConfig) (x : FVal) : FVal :=
  nanToNumF 0 cfg.maxAllowed (-cfg.maxAllowed) (clipF (-cfg.maxAllowed) cfg.maxAllowed x)

/-- `_apply_stability_limits` on one pressure entry:
`nan_to_num(nan=0, posinf=1000, neginf=-1000)` (no clipping). -/
def stabilityFP (x : FVal) : FVal := nanToNumF 0 1000 (-1000) x

/-! ### Streamlines (`get_streamlines`)

The tracer reads the velocity grid at `i = int(x*nx)`, `j = int(y*ny)`.
Only `i >= nx` / `j >= ny` are guarded; a negative index wraps
numpy-style (`a[-k]` is `a[len-k]`), and an index below `-len` raises
`IndexError`, which we model by returning `none` (the exception
propagates out of `get_streamlines`).  `np.sqrt` has no exact `ℚ`
counterpart, so the tracer takes the square-root function as an explicit
argument `sqrtFn`; theorems that evaluate a trace use a `sqrtFn` that
agrees with the real square root on every radicand the trace
encounters. -/

/-- numpy integer indexing with Python negative-index semantics:
`none` models `IndexError`. -/
def npIndex (len : ℕ) (i : ℤ) : Option ℕ :=
  if 0 ≤ i then (if i < len then some i.toNat else none)
  else if -(len : ℤ) ≤ i then some (i + len).toNat
  else none

/-- One streamline trace of `get_streamlines` (the inner `for _ in
range(200)` loop), with `fuel` iterations remaining and the points
accumulated so far (in reverse).  Returns `none` on `IndexError`. -/
def traceLine (cfg : SimulationConfig) (s : SimState) (sqrtFn : ℚ → ℚ) :
    ℕ → ℚ → ℚ → List (ℚ × ℚ) → Option (List (ℚ × ℚ))
  | 0, _, _, acc => some acc.reverse
  | fuel + 1, x, y, acc =>
    if 1 ≤ x ∨ y ≤ 0 ∨ 1 ≤ y then some acc.reverse
    else
      let i : ℤ := pyInt (x * cfg.grid_size_x)
      let j : ℤ := pyInt (y * cfg.grid_size_y)
      if (cfg.grid_size_x : ℤ) ≤ i ∨ (cfg.grid_size_y : ℤ) ≤ j then some acc.reverse
      else
        match npIndex cfg.grid_size_y j, npIndex cfg.grid_size_x i with
        | some j', some i' =>
          if s.mask j' i' then some acc.reverse
          else
            let u := s.u j' i'
            let v := s.v j' i'
            let acc' := (x, y) :: acc
            let speed := sqrtFn (u ^ 2 + v ^ 2)
            if speed < 1/1000 then some acc'.reverse
            else
              let dt := (1/100) / speed
              traceLine cfg s sqrtFn fuel (x + u * dt) (y + v * dt) acc'
        | _, _ => none

/-- `np.linspace(a, b, n)`. -/
def linspaceQ (a b : ℚ) (n : ℕ) : List ℚ :=
  if n = 0 then []
  else if n = 1 then [a]
  else (List.range n).map fun k : ℕ => a + (k : ℚ) * ((b - a) / ((n : ℚ) - 1))

/-- The outer `for y_start in y_starts` loop of `get_streamlines`: trace
each seed, append the line to the result only if it has more than 2
points; an `IndexError` (`none`) from any trace propagates out. -/
def collectStreamlines (cfg : SimulationConfig) (s : SimState) (sqrtFn : ℚ → ℚ) :
    List ℚ → Option (List (List (ℚ × ℚ)))
  | [] => some []
  | ys :: rest =>
    match traceLine cfg s sqrtFn 200 (1/20) ys [] with
    | none => none
    | some line =>
      match collectStreamlines cfg s sqrtFn rest with
      | none => none
      | some acc => some (if 2 < line.length then line :: acc else acc)

/-- `get_streamlines(num_lines)`: seeds at `x = 0.05`,
`y ∈ linspace(0.1, 0.9, num_lines)`, traces each line for up to 200
points, keeps only lines with more than 2 points.  `none` models an
uncaught `IndexError` from the tracer. -/
def getStreamlines (cfg : SimulationConfig) (s : SimState) (sqrtFn : ℚ → ℚ)
    (num_lines : ℕ) : Option (List (List (ℚ × ℚ))) :=
  collectStreamlines cfg s sqrtFn (linspaceQ (1/10) (9/10) num_lines)

/-! ### Simulation manager (`CFDSimulationManager`)

The async machinery is modelled synchronously: a registered task is a
`TaskHandle` with a `done` flag (`asyncio.Task.done()`); the event loop
completing `run_async` is the external transition `markTaskDone` (the
task then remains registered — nothing in the source deregisters a
finished task).  Dictionaries become association lists with newest
binding first. -/

/-- A registered `asyncio.Task`, abstracted to its `done()` flag. -/
structure TaskHandle where
  done : Bool
deriving DecidableEq

/-- Errors raised by the manager (`ValueError`s in the source). -/
inductive MgrError where
  | notFound
  | alreadyRunning
deriving DecidableEq

/-- `CFDSimulationManager`: id → simulation and id → running task. -/
structure Manager where
  simulations : List (String × SimulationConfig)
  running_tasks : List (String × TaskHandle)

/-- `create_simulation(config)`: id is `"sim_{name}_{int(time.time())}"`;
the creation time is the explicit argument `now`. -/
def createSimulation (m : Manager) (name : String) (cfg : SimulationConfig)
    (now : ℕ) : Manager × String :=
  let sim_id := "sim_" ++ name ++ "_" ++ toString now
  ({ m with simulations := (sim_id, cfg) :: m.simulations }, sim_id)

/-- `start_simulation(sim_id)`: `NotFound` if the id is unknown,
`already running` if a task is registered for it (the source checks only
membership in `running_tasks`, not `done()`), otherwise registers a
fresh (not-done) task. -/
def startSimulation (m : Manager) (sim_id : String) : Except MgrError Manager :=
  if (m.simulations.lookup sim_id).isNone then .error .notFound
  else if (m.running_tasks.lookup sim_id).isSome then .error .alreadyRunning
  else .ok { m with running_tasks := (sim_id, ⟨false⟩) :: m.running_tasks }

/-- `stop_simulation(sim_id)`: cancel and deregister if present, no-op
otherwise (cancellation is modelled by removal). -/
def stopSimulation (m : Manager) (sim_id : String) : Manager :=
  { m with running_tasks := m.running_tasks.filter fun kv => kv.1 ≠ sim_id }

/-- `is_running(sim_id)`: task present and not `done()`. -/
def isRunning (m : Manager) (sim_id : String) : Bool :=
  match m.running_tasks.lookup sim_id with
  | some t => !t.done
  | none => false

/-- The environment event "the run loop for `sim_id` finished": the
task's `done()` flips to true; the registry itself is untouched. -/
def markTaskDone (m : Manager) (sim_id : String) : Manager :=
  { m with running_tasks := m.running_tasks.map fun kv =>
      if kv.1 = sim_id then (kv.1, ⟨true⟩) else kv }

/-! ### Specification-side definitions

The following definitions are written from the spec's (or a claim's)
words, to be compared with the source-side definitions above. -/

/-- Written from claim C5's words: the predictor update with EVERY
occurrence of `u` and `v` (base term, advective coefficients, gradients,
Laplacian) evaluated on the guarded (clipped/sanitised) field. -/
def uStarAllGuarded (cfg : SimulationConfig) (s : SimState) : Grid := fun r c =>
  let dt := dtOf cfg s
  let uG := stabilityU cfg s.u
  let vG := stabilityU cfg s.v
  uG r c -
      dt * (uG r c * gradX cfg.grid_size_x cfg.dx uG r c +
        vG r c * gradY cfg.grid_size_y cfg.dy uG r c) +
    cfg.nu * dt * laplacianOf cfg.grid_size_y cfg.grid_size_x cfg.dx cfg.dy uG r c

/-- Written from claim C5's words: the `v` predictor update with every
occurrence of `u` and `v` evaluated on the guarded field. -/
def vStarAllGuarded (cfg : SimulationConfig) (s : SimState) : Grid := fun r c =>
  let dt := dtOf cfg s
  let uG := stabilityU cfg s.u
  let vG := stabilityU cfg s.v
  vG r c -
      dt * (uG r c * gradX cfg.grid_size_x cfg.dx vG r c +
        vG r c * gradY cfg.grid_size_y cfg.dy vG r c) +
    cfg.nu * dt * laplacianOf cfg.grid_size_y cfg.grid_size_x cfg.dx cfg.dy vG r c

/-- Written from the spec's description of one pressure sweep (§4.5): a
pure function of the previous iterate `p` alone.  The update order of
the spec's words (interior update; left column copied from column 1;
right column 0; top row copied from row 1; bottom row copied from row
`ny-2`; obstacle cells zeroed) is resolved into a per-cell closed form:
each boundary copy reads the values the earlier updates of the same
sweep have just written. -/
def specSweep (cfg : SimulationConfig) (mask : BGrid) (dv p : Grid) : Grid :=
  fun r c =>
    let ny := cfg.grid_size_y
    let nx := cfg.grid_size_x
    let cell := jacobiCell cfg.dx cfg.dy cfg.fluid_density dv p
    if mask r c then 0
    else if c = nx - 1 then 0
    else if r = 0 then cell 1 (if c = 0 then 1 else c)
    else if r = ny - 1 then cell (ny - 2) (if c = 0 then 1 else c)
    else if c = 0 then cell r 1
    else cell r c

/-- Written from the spec's words (§4.5): thirty sweeps, warm-started
from the previous step's pressure field. -/
def specPressureSolve (cfg : SimulationConfig) (mask : BGrid) (dv p0 : Grid) : Grid :=
  (specSweep cfg mask dv)^[30] p0

/-- Written from claim C9's words: the axis-aligned box of half-width
`radius` centred at `(cx, cy)` (the grid clipping is expressed by the
`j < ny`, `i < nx` bounds of the claim's quantifiers). -/
def specSquareBox (cfg : SimulationConfig) (j i : ℕ) : Prop :=
  obstacleCy cfg - obstacleRadius cfg ≤ (j : ℤ) ∧
    (j : ℤ) < obstacleCy cfg + obstacleRadius cfg ∧
    obstacleCx cfg - obstacleRadius cfg ≤ (i : ℤ) ∧
    (i : ℤ) < obstacleCx cfg + obstacleRadius cfg

instance (cfg : SimulationConfig) (j i : ℕ) : Decidable (specSquareBox cfg j i) :=
  inferInstanceAs (Decidable (_ ∧ _ ∧ _ ∧ _))

/-! ### Concrete instances used by witnesses and counterexamples -/

/-- A 3×3 inviscid configuration with fixed `dt = 1/10` (adaptive
stepping off), used to probe the predictor. -/
def cfgPred : SimulationConfig :=
  { grid_size_x := 3, grid_size_y := 3, viscosity := 0,
    use_adaptive_dt := false, dt := 1/10 }

/-- A 3×3 state whose `u[1,1] = 100` exceeds the clip bound `10`, all
other velocity entries `1`, `v = 0`, no obstacle. -/
def stateSpike : SimState :=
  { u := fun r c => if r = 1 ∧ c = 1 then 100 else 1,
    v := fun _ _ => 0, p := fun _ _ => 0, vorticity := fun _ _ => 0,
    mask := fun _ _ => false, dt := 1/10, current_step := 0,
    current_time := 0, maxVelSq := 1 }

/-- A 3×3 state with `u = v = 1` everywhere (within the clip bounds),
no obstacle. -/
def stateOnes : SimState :=
  { u := fun _ _ => 1, v := fun _ _ => 1, p := fun _ _ => 0,
    vorticity := fun _ _ => 0, mask := fun _ _ => false, dt := 1/1000,
    current_step := 0, current_time := 0, maxVelSq := 1 }

/-- A 10×10 configuration for the streamline scenarios. -/
def cfgGrid10 : SimulationConfig := { grid_size_x := 10, grid_size_y := 10 }

/-- Scenario D's field: `u = 1`, `v = 0` everywhere, no obstacle. -/
def stateUniform : SimState :=
  { u := fun _ _ => 1, v := fun _ _ => 0, p := fun _ _ => 0,
    vorticity := fun _ _ => 0, mask := fun _ _ => false, dt := 1/1000,
    current_step := 0, current_time := 0, maxVelSq := 1 }

/-- A leftward field: `u = -1` except `u = 1/2000` in the last column
(reached through numpy negative-index wrap-around), `v = 0`, no
obstacle. -/
def stateLeftward : SimState :=
  { stateUniform with u := fun _ i => if i = 9 then 1/2000 else -1 }

/-- A square-root function agreeing with the real `np.sqrt` on every
radicand the `stateUniform` traces encounter (only `1`). -/
def sqrtUniform : ℚ → ℚ := fun _ => 1

/-- A square-root function agreeing with the real `np.sqrt` on every
radicand the `stateLeftward` traces encounter (`1` and `(1/2000)^2`). -/
def sqrtLeftward : ℚ → ℚ := fun q => if q = 1 then 1 else 1/2000

/-- The straight horizontal 95-point streamline at height `y` that
Scenario D produces: `x` from `0.05` in steps of `0.01` up to `0.99`
(the next step reaches `1.0` and terminates the trace). -/
def lineAt (y : ℚ) : List (ℚ × ℚ) :=
  (List.range 95).map fun k : ℕ => (1/20 + (k : ℚ) * (1/100), y)

/-- The 16-point streamline the leftward field produces from seed
`(0.05, 0.1)`: `x` descends from `0.05` to `-0.10`, where the wrapped
column's tiny velocity stops the trace — ten of its points lie left of
the unit square. -/
def negLine : List (ℚ × ℚ) :=
  (List.range 16).map fun k : ℕ => (1/20 - (k : ℚ) * (1/100), 1/10)

/-- A 10×10 square-obstacle configuration whose box pokes past the top
edge: `cx = 5`, `cy = 0`, `radius = 2`, so the row slice is
`-2:2`, which Python resolves to the empty range `8:2`. -/
def cfgSquareEdge : SimulationConfig :=
  { grid_size_x := 10, grid_size_y := 10, obstacle_type := "square",
    obstacle_position := (1/2, 0), obstacle_size := 1/5 }

/-- A 10×10 square-obstacle configuration with the box fully inside:
`cx = cy = 5`, `radius = 2` (rows and columns `3..6`). -/
def cfgSquareMid : SimulationConfig :=
  { grid_size_x := 10, grid_size_y := 10, obstacle_type := "square",
    obstacle_position := (1/2, 1/2), obstacle_size := 1/5 }

/-- The empty manager. -/
def mgr0 : Manager := { simulations := [], running_tasks := [] }

/-- A manager holding one simulation, created as `"a"` at epoch `0`
(so its id is `"sim_a_0"`). -/
def mgrCreated : Manager := (createSimulation mgr0 "a" { } 0).1

/-- `mgrCreated` after `start_simulation("sim_a_0")` succeeded. -/
def mgrStarted : Manager :=
  match startSimulation mgrCreated "sim_a_0" with
  | .ok m => m
  | .error _ => mgrCreated

/-- `mgrStarted` after its run loop completed: the task's `done()` is
now true, but the task is still registered (nothing in the source ever
deregisters a finished task). -/
def mgrFinished : Manager := markTaskDone mgrStarted "sim_a_0"

/-! ## Helper lemmas -/

theorem qmax_eq (a b : ℚ) : qmax a b = max a b := (max_def a b).symm

theorem qmin_eq (a b : ℚ) : qmin a b = min a b := (min_def a b).symm

theorem clipQ_of_mem (lo hi x : ℚ) (h1 : lo ≤ x) (h2 : x ≤ hi) :
    clipQ lo hi x = x := by
  unfold clipQ
  rw [qmin_eq, qmax_eq, max_eq_left h1, min_eq_right h2]

theorem clipQ_zero (M : ℚ) (hM : 0 ≤ M) : clipQ (-M) M 0 = 0 :=
  clipQ_of_mem _ _ _ (neg_nonpos.mpr hM) hM

theorem abs_clipQ_le (M x : ℚ) (hM : 0 ≤ M) : |clipQ (-M) M x| ≤ M := by
  unfold clipQ
  rw [qmin_eq, qmax_eq, abs_le]
  constructor
  · exact le_min (neg_le_self hM) (le_max_right _ _)
  · exact min_le_left _ _

theorem stepFn_mask (cfg : SimulationConfig) (s : SimState) :
    (stepFn cfg s).mask = s.mask := rfl

theorem iterate_stepFn_mask (cfg : SimulationConfig) (s : SimState) (n : ℕ) :
    ((stepFn cfg)^[n] s).mask = s.mask := by
  induction n with
  | zero => rfl
  | succ n ih => rw [Function.iterate_succ_apply', stepFn_mask, ih]

theorem stepFn_u_obstacle (cfg : SimulationConfig) (s : SimState)
    (hinlet : 0 ≤ cfg.inlet_velocity) (r c : ℕ) (hm : s.mask r c = true) :
    (stepFn cfg s).u r c = 0 := by
  have hM : (0:ℚ) ≤ cfg.maxAllowed := by
    unfold SimulationConfig.maxAllowed; positivity
  show clipGrid cfg.maxAllowed (applyBcU cfg s.mask (uCorrOf cfg s)) r c = 0
  unfold clipGrid applyBcU bcObstacle
  rw [if_pos hm]
  exact clipQ_zero _ hM

theorem stepFn_v_obstacle (cfg : SimulationConfig) (s : SimState)
    (hinlet : 0 ≤ cfg.inlet_velocity) (r c : ℕ) (hm : s.mask r c = true) :
    (stepFn cfg s).v r c = 0 := by
  have hM : (0:ℚ) ≤ cfg.maxAllowed := by
    unfold SimulationConfig.maxAllowed; positivity
  show clipGrid cfg.maxAllowed (applyBcV cfg s.mask (vCorrOf cfg s)) r c = 0
  unfold clipGrid applyBcV bcObstacle
  rw [if_pos hm]
  exact clipQ_zero _ hM

/-! ## Claim theorems -/

/-- C10: immediately after construction (the Idle state, before any call
to `step()`), the x-velocity grid equals `config.inlet_velocity` at every
cell — including cells under the obstacle mask — while `v`, `p` and the
vorticity are all zero; consequently (for nonzero inlet velocity) the
obstacle cells carry nonzero velocity, so the obstacle invariant does not
hold in the Idle state. -/
theorem c10_idle_state (cfg : SimulationConfig) (mask : BGrid) (r c : ℕ) :
    (initState cfg mask).u r c = cfg.inlet_velocity ∧
    (initState cfg mask).v r c = 0 ∧
    (initState cfg mask).p r c = 0 ∧
    (initState cfg mask).vorticity r c = 0 ∧
    (initState cfg mask).current_step = 0 ∧
    (cfg.inlet_velocity ≠ 0 → mask r c = true → (initState cfg mask).u r c ≠ 0) :=
  ⟨rfl, rfl, rfl, rfl, rfl, fun h _ => h⟩

/-- Witness for C10 at a concrete input: the default-config 20×10
cylinder simulation has `u = 1 ≠ 0` on the obstacle cell `(5,5)` before
the first step. -/
theorem c10_idle_state_witness :
    (initState { grid_size_x := 20, grid_size_y := 10 }
        (cylinderMask { grid_size_x := 20, grid_size_y := 10 })).u 5 5 = 1 ∧
    (initState { grid_size_x := 20, grid_size_y := 10 }
        (cylinderMask { grid_size_x := 20, grid_size_y := 10 })).u 5 5 ≠ 0 := by
  refine ⟨(c10_idle_state _ _ 5 5).1, ?_⟩
  exact (c10_idle_state { grid_size_x := 20, grid_size_y := 10 }
    (cylinderMask { grid_size_x := 20, grid_size_y := 10 }) 5 5).2.2.2.2.2
    (by norm_num) (by with_unfolding_all decide)

/-- C1: for every obstacle mask (in particular those built for the
cylinder, square and airfoil kinds) and every `n ≥ 1`, after the `n`-th
call to `step()` every cell under the mask carries exactly zero velocity:
the obstacle override is the last assignment of
`_apply_boundary_conditions` and the subsequent stability guard fixes
`0` (given a nonnegative inlet velocity, so that the clip interval
contains `0`). -/
theorem c1_obstacle_invariant (cfg : SimulationConfig) (s : SimState) (n : ℕ)
    (hinlet : 0 ≤ cfg.inlet_velocity) (hn : 1 ≤ n) (r c : ℕ)
    (hm : s.mask r c = true) :
    ((stepFn cfg)^[n] s).u r c = 0 ∧ ((stepFn cfg)^[n] s).v r c = 0 := by
  obtain ⟨m, rfl⟩ : ∃ m, n = m + 1 := ⟨n - 1, by omega⟩
  rw [Function.iterate_succ_apply']
  have hmask : ((stepFn cfg)^[m] s).mask r c = true := by
    rw [iterate_stepFn_mask]; exact hm
  exact ⟨stepFn_u_obstacle cfg _ hinlet r c hmask,
    stepFn_v_obstacle cfg _ hinlet r c hmask⟩

/-- Witness for C1: one step of the default-config 20×10 cylinder
simulation, evaluated at the obstacle cell `(5,5)`. -/
theorem c1_obstacle_invariant_witness :
    (0:ℚ) ≤ (1:ℚ) ∧
    ((stepFn { grid_size_x := 20, grid_size_y := 10 })^[1]
        (initState { grid_size_x := 20, grid_size_y := 10 }
          (cylinderMask { grid_size_x := 20, grid_size_y := 10 }))).u 5 5 = 0 :=
  ⟨by norm_num,
    (c1_obstacle_invariant { grid_size_x := 20, grid_size_y := 10 } _ 1
      (by norm_num) (by norm_num) 5 5 (by with_unfolding_all decide)).1⟩

/-- The rate-limiting and ceiling structure of `_calculate_cfl_timestep`
bounds its output by the previous `dt` regardless of the convective and
viscous candidates. -/
theorem calcCflTimestep_bounds (cfg : SimulationConfig) (s : SimState)
    (h0 : 0 ≤ s.dt) (hle : s.dt ≤ cfg.dt) :
    5/10 * s.dt ≤ calcCflTimestep cfg s ∧
    calcCflTimestep cfg s ≤ 12/10 * s.dt ∧
    calcCflTimestep cfg s ≤ cfg.dt ∧ 0 ≤ calcCflTimestep cfg s := by
  unfold calcCflTimestep
  simp only [qmin_eq, qmax_eq]
  refine ⟨?_, ?_, min_le_right _ _, ?_⟩
  · exact le_min (le_max_right _ _) (by linarith)
  · exact le_trans (min_le_left _ _)
      (max_le (le_trans (min_le_right _ _) (by linarith)) (by linarith))
  · exact le_trans (by linarith) (le_min (le_max_right _ _) (by linarith))

theorem stepFn_dt_adaptive (cfg : SimulationConfig) (s : SimState)
    (ha : cfg.use_adaptive_dt = true) :
    (stepFn cfg s).dt = calcCflTimestep cfg s := by
  show dtOf cfg s = _
  unfold dtOf
  rw [ha, if_pos rfl]

/-- Along any run of `step()` from a freshly constructed simulation with
adaptive stepping, the stored `dt` stays inside `[0, config.dt]`. -/
theorem iterate_stepFn_dt_mem (cfg : SimulationConfig) (mask : BGrid) (n : ℕ)
    (ha : cfg.use_adaptive_dt = true) (hdt : 0 ≤ cfg.dt) :
    0 ≤ ((stepFn cfg)^[n] (initState cfg mask)).dt ∧
    ((stepFn cfg)^[n] (initState cfg mask)).dt ≤ cfg.dt := by
  induction n with
  | zero => exact ⟨hdt, le_refl _⟩
  | succ n ih =>
    rw [Function.iterate_succ_apply', stepFn_dt_adaptive cfg _ ha]
    have h := calcCflTimestep_bounds cfg _ ih.1 ih.2
    exact ⟨h.2.2.2, h.2.2.1⟩

/-- C2: with adaptive time stepping enabled, for every step `n ≥ 1` the
time step chosen for step `n+1` satisfies
`0.5·dt_n ≤ dt_{n+1} ≤ min(1.2·dt_n, config.dt)`: the candidate
`min(convective, viscous)` is capped at `1.2·dt_n`, floored at
`0.5·dt_n`, and the result never exceeds the user ceiling `config.dt`
(which also keeps every `dt_n ≤ config.dt`, so the floor never conflicts
with the ceiling). -/
theorem c2_timestep_bounds (cfg : SimulationConfig) (mask : BGrid) (n : ℕ)
    (ha : cfg.use_adaptive_dt = true) (hdt : 0 ≤ cfg.dt) (_hn : 1 ≤ n) :
    5/10 * ((stepFn cfg)^[n] (initState cfg mask)).dt ≤
      ((stepFn cfg)^[n + 1] (initState cfg mask)).dt ∧
    ((stepFn cfg)^[n + 1] (initState cfg mask)).dt ≤
      min (12/10 * ((stepFn cfg)^[n] (initState cfg mask)).dt) cfg.dt := by
  have hmem := iterate_stepFn_dt_mem cfg mask n ha hdt
  have h := calcCflTimestep_bounds cfg ((stepFn cfg)^[n] (initState cfg mask))
    hmem.1 hmem.2
  rw [Function.iterate_succ_apply', stepFn_dt_adaptive cfg _ ha]
  exact ⟨h.1, le_min h.2.1 h.2.2.1⟩

/-- Witness for C2 at the default configuration (adaptive stepping
enabled, `dt = 1/1000`), `n = 1`. -/
theorem c2_timestep_bounds_witness :
    ({ } : SimulationConfig).use_adaptive_dt = true ∧ (0:ℚ) ≤ ({ } : SimulationConfig).dt ∧
    5/10 * ((stepFn { })^[1] (initState { } (cylinderMask { }))).dt ≤
      ((stepFn { })^[1 + 1] (initState { } (cylinderMask { }))).dt :=
  ⟨rfl, by norm_num,
    (c2_timestep_bounds { } (cylinderMask { }) 1 rfl (by norm_num) (le_refl 1)).1⟩

/-- C3: after the stability guard at the end of `step()` no field
contains a NaN or infinite value and every velocity entry is bounded by
`10·inlet_velocity` in absolute value.  Part (i) and (ii): on the
extended-value model, whatever the corrector produced (any combination
of finite values, NaN and ±Inf), the guard maps every `u`/`v` entry to a
finite value of absolute value at most `10·inlet_velocity` and every
pressure entry to a finite value.  Part (iii): in the `ℚ` pipeline the
velocity fields of the post-step state obey the same bound at every
cell.  The vorticity is computed from the guarded `u`, `v` by rational
gradient arithmetic, hence is finite by construction. -/
theorem c3_stability_guard (cfg : SimulationConfig)
    (hinlet : 0 ≤ cfg.inlet_velocity) :
    (∀ x : FVal, ∃ q : ℚ, stabilityFUV cfg x = .fin q ∧ |q| ≤ 10 * cfg.inlet_velocity) ∧
    (∀ x : FVal, ∃ q : ℚ, stabilityFP x = .fin q) ∧
    (∀ (s : SimState) (r c : ℕ),
      |(stepFn cfg s).u r c| ≤ 10 * cfg.inlet_velocity ∧
      |(stepFn cfg s).v r c| ≤ 10 * cfg.inlet_velocity) := by
  have hM : (0:ℚ) ≤ cfg.maxAllowed := by
    unfold SimulationConfig.maxAllowed; positivity
  have hMeq : cfg.maxAllowed = 10 * cfg.inlet_velocity := rfl
  refine ⟨fun x => ?_, fun x => ?_, fun s r c => ?_⟩
  · cases x with
    | fin q =>
      refine ⟨qmin cfg.maxAllowed (qmax q (-cfg.maxAllowed)), rfl, ?_⟩
      rw [← hMeq, qmin_eq, qmax_eq, abs_le]
      exact ⟨le_min (neg_le_self hM) (le_max_right _ _), min_le_left _ _⟩
    | nan => exact ⟨0, rfl, by rw [← hMeq]; simpa using hM⟩
    | pinf => exact ⟨cfg.maxAllowed, rfl, by rw [← hMeq, abs_of_nonneg hM]⟩
    | ninf =>
      refine ⟨qmin cfg.maxAllowed (-cfg.maxAllowed), rfl, ?_⟩
      rw [← hMeq, qmin_eq, abs_le]
      exact ⟨le_min (neg_le_self hM) (le_refl _), min_le_left _ _⟩
  · cases x with
    | fin q => exact ⟨q, rfl⟩
    | nan => exact ⟨0, rfl⟩
    | pinf => exact ⟨1000, rfl⟩
    | ninf => exact ⟨-1000, rfl⟩
  · constructor
    · show |clipGrid cfg.maxAllowed (applyBcU cfg s.mask (uCorrOf cfg s)) r c| ≤ _
      rw [← hMeq]; exact abs_clipQ_le _ _ hM
    · show |clipGrid cfg.maxAllowed (applyBcV cfg s.mask (vCorrOf cfg s)) r c| ≤ _
      rw [← hMeq]; exact abs_clipQ_le _ _ hM

/-- Witness for C3 at the default configuration: the guard maps a NaN
velocity entry to a finite value within bounds, and the first step's
velocity at cell `(3,7)` is within `±10`. -/
theorem c3_stability_guard_witness :
    (0:ℚ) ≤ ({ } : SimulationConfig).inlet_velocity ∧
    (∃ q : ℚ, stabilityFUV { } FVal.nan = .fin q ∧ |q| ≤ 10 * ({ } : SimulationConfig).inlet_velocity) ∧
    |(stepFn { } (initState { } (cylinderMask { }))).u 3 7| ≤
      10 * ({ } : SimulationConfig).inlet_velocity :=
  ⟨by norm_num, (c3_stability_guard { } (by norm_num)).1 FVal.nan,
    ((c3_stability_guard { } (by norm_num)).2.2 (initState { } (cylinderMask { })) 3 7).1⟩

/-- One step leaves `(inlet_velocity, 0)` on a column-0 cell provided
the cell is in an interior row (the wall rows 0 and `ny-1` are
overwritten to `0` AFTER the inlet assignment) and not under the
obstacle mask (the obstacle override runs last). -/
theorem stepFn_inlet_interior (cfg : SimulationConfig) (s : SimState) (r : ℕ)
    (hinlet : 0 ≤ cfg.inlet_velocity) (hnx : 2 ≤ cfg.grid_size_x)
    (hr0 : 1 ≤ r) (hrN : r + 1 < cfg.grid_size_y) (hm : s.mask r 0 = false) :
    (stepFn cfg s).u r 0 = cfg.inlet_velocity ∧ (stepFn cfg s).v r 0 = 0 := by
  have hM : (0:ℚ) ≤ cfg.maxAllowed := by
    unfold SimulationConfig.maxAllowed; positivity
  have hwall : ¬(r = 0 ∨ r = cfg.grid_size_y - 1) := by omega
  have hout : (0:ℕ) ≠ cfg.grid_size_x - 1 := by omega
  constructor
  · show clipGrid cfg.maxAllowed (applyBcU cfg s.mask (uCorrOf cfg s)) r 0 = _
    unfold clipGrid applyBcU bcObstacle bcWalls bcOutlet bcInletU
    rw [hm, if_neg Bool.false_ne_true, if_neg hwall, if_neg hout, if_pos rfl]
    exact clipQ_of_mem _ _ _
      (by unfold SimulationConfig.maxAllowed; linarith)
      (by unfold SimulationConfig.maxAllowed; linarith)
  · show clipGrid cfg.maxAllowed (applyBcV cfg s.mask (vCorrOf cfg s)) r 0 = _
    unfold clipGrid applyBcV bcObstacle bcWalls bcOutlet bcInletV
    rw [hm, if_neg Bool.false_ne_true, if_neg hwall, if_neg hout, if_pos rfl]
    exact clipQ_zero _ hM

/-- C4 counterexample: the claim `u[:,0] == inlet_velocity` after a step
fails at the corner row 0 for the very configuration of Scenario A
(grid 20×10, inlet 1, cylinder at (0.25, 0.5) size 0.1):
`_apply_boundary_conditions` assigns the inlet column first and the
no-slip wall rows afterwards, so `u[0,0]` ends at `0`, not `1`. -/
theorem c4_counterexample :
    (stepFn { grid_size_x := 20, grid_size_y := 10 }
      (initState { grid_size_x := 20, grid_size_y := 10 }
        (cylinderMask { grid_size_x := 20, grid_size_y := 10 }))).u 0 0 = 0 ∧
    ({ grid_size_x := 20, grid_size_y := 10 } : SimulationConfig).inlet_velocity = 1 ∧
    (0 : ℚ) ≠ 1 := by
  refine ⟨by with_unfolding_all decide, rfl, by norm_num⟩

/-- C4 as amended: after any `n ≥ 1` steps, every column-0 cell in an
interior row (`0 < r < ny-1`) that is not under the obstacle mask equals
`(inlet_velocity, 0)` exactly (for `inlet_velocity ≥ 0` and `nx ≥ 2`);
the corner rows are overridden to `0` by the wall condition and masked
cells by the obstacle override, both of which run after the inlet
assignment. -/
theorem c4_inlet_interior_rows (cfg : SimulationConfig) (s : SimState) (n r : ℕ)
    (hinlet : 0 ≤ cfg.inlet_velocity) (hnx : 2 ≤ cfg.grid_size_x)
    (hn : 1 ≤ n) (hr0 : 1 ≤ r) (hrN : r + 1 < cfg.grid_size_y)
    (hm : s.mask r 0 = false) :
    ((stepFn cfg)^[n] s).u r 0 = cfg.inlet_velocity ∧
    ((stepFn cfg)^[n] s).v r 0 = 0 := by
  obtain ⟨m, rfl⟩ : ∃ m, n = m + 1 := ⟨n - 1, by omega⟩
  rw [Function.iterate_succ_apply']
  have hmask : ((stepFn cfg)^[m] s).mask r 0 = false := by
    rw [iterate_stepFn_mask]; exact hm
  exact stepFn_inlet_interior cfg _ r hinlet hnx hr0 hrN hmask

/-- Witness for the amended C4: Scenario A's configuration, one step,
interior row 3. -/
theorem c4_inlet_interior_rows_witness :
    ((stepFn { grid_size_x := 20, grid_size_y := 10 })^[1]
      (initState { grid_size_x := 20, grid_size_y := 10 }
        (cylinderMask { grid_size_x := 20, grid_size_y := 10 }))).u 3 0 = 1 ∧
    ((stepFn { grid_size_x := 20, grid_size_y := 10 })^[1]
      (initState { grid_size_x := 20, grid_size_y := 10 }
        (cylinderMask { grid_size_x := 20, grid_size_y := 10 }))).v 3 0 = 0 :=
  c4_inlet_interior_rows { grid_size_x := 20, grid_size_y := 10 } _ 1 3
    (by norm_num) (by norm_num) (le_refl 1) (by norm_num) (by norm_num)
    (by with_unfolding_all decide)

/-- C5 counterexample: the claim that every occurrence of `u`, `v` in
the predictor update is evaluated on the guarded field is false: on a
3×3 grid with `u[1,1] = 100` (beyond the clip bound 10), zero `v`, zero
viscosity and fixed `dt = 1/10`, the source predictor (`uStarOf`, whose
base term and advective coefficients are the copies `u_old`, `v_old`
taken before `_apply_stability_limits` reassigns `self.u`) yields
`u*[1,1] = 100`, while the all-guarded predictor of the claim yields
`10`. -/
theorem c5_counterexample :
    uStarOf cfgPred stateSpike 1 1 = 100 ∧
    uStarAllGuarded cfgPred stateSpike 1 1 = 10 ∧ (100 : ℚ) ≠ 10 := by
  refine ⟨by with_unfolding_all decide, by with_unfolding_all decide, by norm_num⟩

/-- C5 as amended: the stability guard does run on the stored
previous-step field before the predictor, and the gradient and Laplacian
factors of the predictor read the guarded field; but the additive base
term and the advective coefficients read the copies `u_old`, `v_old`
taken before the guard ran, so the claim's conclusion holds at a cell
exactly when that cell's incoming values are already within the clip
bounds — there the guard is the identity and the source predictor
coincides with the all-guarded predictor. -/
theorem c5_guarded_iff_in_bounds (cfg : SimulationConfig) (s : SimState)
    (r c : ℕ) (hu : |s.u r c| ≤ cfg.maxAllowed) (hv : |s.v r c| ≤ cfg.maxAllowed) :
    uStarOf cfg s r c = uStarAllGuarded cfg s r c ∧
    vStarOf cfg s r c = vStarAllGuarded cfg s r c := by
  have hu' : stabilityU cfg s.u r c = s.u r c :=
    clipQ_of_mem _ _ _ (neg_le_of_abs_le hu) (le_of_abs_le hu)
  have hv' : stabilityU cfg s.v r c = s.v r c :=
    clipQ_of_mem _ _ _ (neg_le_of_abs_le hv) (le_of_abs_le hv)
  simp only [uStarOf, vStarOf, uStarAllGuarded, vStarAllGuarded]
  rw [hu', hv']
  exact ⟨rfl, rfl⟩

/-- Witness for the amended C5: an all-ones 3×3 field is within the
bounds, and there the two predictors agree at cell `(1,1)`. -/
theorem c5_guarded_iff_in_bounds_witness :
    |stateOnes.u 1 1| ≤ cfgPred.maxAllowed ∧
    uStarOf cfgPred stateOnes 1 1 = uStarAllGuarded cfgPred stateOnes 1 1 :=
  ⟨by with_unfolding_all decide,
    (c5_guarded_iff_in_bounds cfgPred stateOnes 1 1
      (by with_unfolding_all decide) (by with_unfolding_all decide)).1⟩

/-- For a grid with at least three rows and columns, one source sweep
(two-buffer, sequential boundary assignments) coincides on the grid with
the specification-side closed-form sweep, for EVERY content of the write
buffer `pn`: the stale buffer cells never leak into in-range results. -/
theorem jacobiSweep_eq_specSweep (cfg : SimulationConfig) (mask : BGrid)
    (dv p pn : Grid) (h3x : 3 ≤ cfg.grid_size_x) (h3y : 3 ≤ cfg.grid_size_y)
    (r c : ℕ) (hr : r < cfg.grid_size_y) (hc : c < cfg.grid_size_x) :
    jacobiSweep cfg.grid_size_y cfg.grid_size_x cfg.dx cfg.dy
      cfg.fluid_density mask dv p pn r c = specSweep cfg mask dv p r c := by
  simp only [jacobiSweep, specSweep, bcObstacle, pBcBottom, pBcTop, bcPOutlet,
    pBcLeft, jacobiInterior]
  split_ifs <;> first | rfl | omega

/-- `jacobiCell` only reads `p` at the four neighbours, so it respects
agreement of `p` and `q` on the grid. -/
theorem jacobiCell_congr (ny nx : ℕ) (dx dy rho : ℚ) (dv p q : Grid)
    (h : ∀ r' < ny, ∀ c' < nx, p r' c' = q r' c') (R C : ℕ)
    (hR : R + 1 < ny) (hC : C + 1 < nx) :
    jacobiCell dx dy rho dv p R C = jacobiCell dx dy rho dv q R C := by
  unfold jacobiCell
  rw [h R (by omega) (C + 1) hC, h R (by omega) (C - 1) (by omega),
    h (R + 1) hR C (by omega), h (R - 1) (by omega) C (by omega)]

/-- The specification-side sweep reads its input only at grid cells, so
it respects agreement on the grid. -/
theorem specSweep_congr (cfg : SimulationConfig) (mask : BGrid) (dv p q : Grid)
    (h3x : 3 ≤ cfg.grid_size_x) (h3y : 3 ≤ cfg.grid_size_y)
    (h : ∀ r' < cfg.grid_size_y, ∀ c' < cfg.grid_size_x, p r' c' = q r' c')
    (r c : ℕ) (hr : r < cfg.grid_size_y) (hc : c < cfg.grid_size_x) :
    specSweep cfg mask dv p r c = specSweep cfg mask dv q r c := by
  simp only [specSweep]
  split_ifs <;>
    first
      | rfl
      | exact jacobiCell_congr _ _ _ _ _ _ _ _ h _ _ (by omega) (by omega)

/-- The two-buffer iteration of `_solve_pressure_poisson` agrees on the
grid with the warm-started iteration of the specification-side sweep,
for any initial write-buffer content. -/
theorem jacobiLoop_eq_spec (cfg : SimulationConfig) (mask : BGrid) (dv : Grid)
    (h3x : 3 ≤ cfg.grid_size_x) (h3y : 3 ≤ cfg.grid_size_y) :
    ∀ (k : ℕ) (p pn q : Grid),
      (∀ r' < cfg.grid_size_y, ∀ c' < cfg.grid_size_x, p r' c' = q r' c') →
      ∀ r < cfg.grid_size_y, ∀ c < cfg.grid_size_x,
        jacobiLoop cfg.grid_size_y cfg.grid_size_x cfg.dx cfg.dy
          cfg.fluid_density mask dv k (p, pn) r c =
        (specSweep cfg mask dv)^[k] q r c := by
  intro k
  induction k with
  | zero => intro p pn q h r hr c hc; exact h r hr c hc
  | succ k ih =>
    intro p pn q h r hr c hc
    rw [Function.iterate_succ_apply]
    show jacobiLoop cfg.grid_size_y cfg.grid_size_x cfg.dx cfg.dy
      cfg.fluid_density mask dv k (_, _) r c = _
    exact ih _ _ (specSweep cfg mask dv q)
      (fun r' hr' c' hc' =>
        (jacobiSweep_eq_specSweep cfg mask dv p pn h3x h3y r' c' hr' hc').trans
          (specSweep_congr cfg mask dv p q h3x h3y h r' c' hr' hc'))
      r hr c hc

/-- The specification-side sweep leaves `0` on the whole outlet
column. -/
theorem specSweep_outlet (cfg : SimulationConfig) (mask : BGrid) (dv p : Grid)
    (r : ℕ) : specSweep cfg mask dv p r (cfg.grid_size_x - 1) = 0 := by
  simp only [specSweep]
  split_ifs <;> rfl

/-- C6: in every call to `step()` the pressure solve performs exactly 30
Jacobi sweeps, warm-started from the previous step's pressure field (not
from zero), and each sweep is the spec's sweep: interior four-neighbour
average minus the divergence term, then the pressure boundary conditions
(left ← column 1, right ← 0, top ← row 1, bottom ← row `ny-2`, each copy
reading the values already written in this sweep) and obstacle zeroing,
before the next sweep reads the updated buffer.  Stated for grids with
at least 3 rows and columns (below that the numpy slice assignments of
the source degenerate); both the solver output (`pressureOf`) and the
pressure field stored by `step()` agree with the spec-side
`specPressureSolve = specSweep^[30]` warm-started at `s.p`. -/
theorem c6_pressure_solver (cfg : SimulationConfig) (s : SimState)
    (h3x : 3 ≤ cfg.grid_size_x) (h3y : 3 ≤ cfg.grid_size_y)
    (r c : ℕ) (hr : r < cfg.grid_size_y) (hc : c < cfg.grid_size_x) :
    pressureOf cfg s r c =
      specPressureSolve cfg s.mask (divergenceOf cfg s) s.p r c ∧
    (stepFn cfg s).p r c =
      specPressureSolve cfg s.mask (divergenceOf cfg s) s.p r c := by
  have h1 : pressureOf cfg s r c =
      specPressureSolve cfg s.mask (divergenceOf cfg s) s.p r c :=
    jacobiLoop_eq_spec cfg s.mask (divergenceOf cfg s) h3x h3y 30 s.p
      (fun _ _ => 0) s.p (fun _ _ _ _ => rfl) r hr c hc
  refine ⟨h1, ?_⟩
  show bcPOutlet cfg.grid_size_x (pressureOf cfg s) r c = _
  unfold bcPOutlet
  by_cases hout : c = cfg.grid_size_x - 1
  · rw [if_pos hout, hout]
    show (0:ℚ) = (specSweep cfg s.mask (divergenceOf cfg s))^[29+1] s.p r _
    rw [Function.iterate_succ_apply', specSweep_outlet]
  · rw [if_neg hout]; exact h1

/-- Witness for C6 at the Scenario A configuration (20×10 grid), cell
`(2,3)`, one arbitrary state (the freshly constructed one). -/
theorem c6_pressure_solver_witness :
    (3 ≤ 20 ∧ 3 ≤ 10) ∧
    pressureOf { grid_size_x := 20, grid_size_y := 10 }
        (initState { grid_size_x := 20, grid_size_y := 10 }
          (cylinderMask { grid_size_x := 20, grid_size_y := 10 })) 2 3 =
      specPressureSolve { grid_size_x := 20, grid_size_y := 10 }
        (initState { grid_size_x := 20, grid_size_y := 10 }
          (cylinderMask { grid_size_x := 20, grid_size_y := 10 })).mask
        (divergenceOf { grid_size_x := 20, grid_size_y := 10 }
          (initState { grid_size_x := 20, grid_size_y := 10 }
            (cylinderMask { grid_size_x := 20, grid_size_y := 10 })))
        (initState { grid_size_x := 20, grid_size_y := 10 }
          (cylinderMask { grid_size_x := 20, grid_size_y := 10 })).p 2 3 :=
  ⟨⟨by norm_num, by norm_num⟩,
    (c6_pressure_solver { grid_size_x := 20, grid_size_y := 10 } _
      (by norm_num) (by norm_num) 2 3 (by norm_num) (by norm_num)).1⟩

/-- Removing a key from an association list makes its lookup fail. -/
theorem lookup_filter_ne (l : List (String × TaskHandle)) (sid : String) :
    (l.filter fun kv => kv.1 ≠ sid).lookup sid = none := by
  induction l with
  | nil => rfl
  | cons kv t ih =>
    by_cases h : kv.1 = sid
    · simpa [List.filter_cons, h] using ih
    · have hb : (sid == kv.1) = false := beq_eq_false_iff_ne.mpr (Ne.symm h)
      rw [List.filter_cons, if_pos (by simpa using h), List.lookup, hb]
      exact ih

/-- C7 counterexample: in a reachable manager state whose run-loop task
for `"sim_a_0"` has FINISHED but (as always in the source) remains
registered, `start_simulation` still raises the "already running"
conflict, refuting "Conflict exactly when a task is already registered
and not finished". -/
theorem c7_counterexample :
    startSimulation mgrFinished "sim_a_0" = .error .alreadyRunning ∧
    isRunning mgrFinished "sim_a_0" = false ∧
    (mgrFinished.running_tasks.lookup "sim_a_0").isSome = true := by
  refine ⟨by with_unfolding_all rfl, by with_unfolding_all decide,
    by with_unfolding_all decide⟩

/-- C7 as amended: `start_simulation(id)` fails NotFound exactly when
the id is unknown, fails Conflict ("already running") exactly when a
task is REGISTERED for the id — whether or not it has finished — and
otherwise registers a fresh task; in particular the second of two
consecutive starts fails with Conflict, and `stop(id)` (which
deregisters) followed by `start(id)` succeeds. -/
theorem c7_start_stop_semantics :
    (∀ (m : Manager) (sid : String),
      startSimulation m sid = .error .notFound ↔
        m.simulations.lookup sid = none) ∧
    (∀ (m : Manager) (sid : String), (m.simulations.lookup sid).isSome = true →
      (startSimulation m sid = .error .alreadyRunning ↔
        (m.running_tasks.lookup sid).isSome = true)) ∧
    (∀ (m m' : Manager) (sid : String), startSimulation m sid = .ok m' →
      startSimulation m' sid = .error .alreadyRunning) ∧
    (∀ (m : Manager) (sid : String), (m.simulations.lookup sid).isSome = true →
      ∃ m', startSimulation (stopSimulation m sid) sid = .ok m') := by
  refine ⟨fun m sid => ?_, fun m sid hs => ?_, fun m m' sid h => ?_,
    fun m sid hs => ?_⟩
  · unfold startSimulation
    cases hsim : m.simulations.lookup sid with
    | none => simp [hsim]
    | some cfg =>
      simp only [hsim, Option.isNone_some, Bool.false_eq_true, if_false]
      constructor
      · intro h
        by_cases ht : (m.running_tasks.lookup sid).isSome = true <;>
          simp [ht] at h
      · intro h; exact absurd h (by simp)
  · unfold startSimulation
    rw [if_neg (by simp_all)]
    constructor
    · intro h
      by_cases ht : (m.running_tasks.lookup sid).isSome = true
      · exact ht
      · simp [ht] at h
    · intro h; rw [if_pos h]
  · unfold startSimulation at h ⊢
    by_cases hsim : (m.simulations.lookup sid).isNone = true
    · rw [if_pos hsim] at h; exact absurd h (by simp)
    · rw [if_neg hsim] at h
      by_cases ht : (m.running_tasks.lookup sid).isSome = true
      · rw [if_pos ht] at h; exact absurd h (by simp)
      · rw [if_neg ht] at h
        have hm' : m' = { m with
            running_tasks := (sid, ⟨false⟩) :: m.running_tasks } := by
          cases h; rfl
        subst hm'
        rw [if_neg hsim, if_pos (by simp [List.lookup])]
  · have h1 : ¬((stopSimulation m sid).simulations.lookup sid).isNone = true := by
      simp only [stopSimulation]
      simp_all
    have h2 : ¬((stopSimulation m sid).running_tasks.lookup sid).isSome = true := by
      simp [stopSimulation, lookup_filter_ne]
    refine ⟨{ stopSimulation m sid with running_tasks :=
      (sid, ⟨false⟩) :: (stopSimulation m sid).running_tasks }, ?_⟩
    unfold startSimulation
    rw [if_neg h1, if_neg h2]

/-- Witness for the amended C7: in the one-simulation manager,
stop-then-start succeeds on `"sim_a_0"`. -/
theorem c7_start_stop_semantics_witness :
    (mgrCreated.simulations.lookup "sim_a_0").isSome = true ∧
    ∃ m', startSimulation (stopSimulation mgrCreated "sim_a_0") "sim_a_0" = .ok m' :=
  ⟨by with_unfolding_all decide,
    c7_start_stop_semantics.2.2.2 mgrCreated "sim_a_0"
      (by with_unfolding_all decide)⟩

/-- A successful trace emits at most one point per remaining fuel
unit. -/
theorem traceLine_length (cfg : SimulationConfig) (s : SimState) (f : ℚ → ℚ) :
    ∀ (fuel : ℕ) (x y : ℚ) (acc res : List (ℚ × ℚ)),
      traceLine cfg s f fuel x y acc = some res →
      res.length ≤ acc.length + fuel := by
  intro fuel
  induction fuel with
  | zero =>
    intro x y acc res h
    simp only [traceLine, Option.some.injEq] at h
    subst h; simp
  | succ fuel ih =>
    intro x y acc res h
    simp only [traceLine] at h
    split at h
    · simp only [Option.some.injEq] at h; subst h
      simp only [List.length_reverse]; omega
    · split at h
      · simp only [Option.some.injEq] at h; subst h
        simp only [List.length_reverse]; omega
      · split at h
        · split at h
          · simp only [Option.some.injEq] at h; subst h
            simp only [List.length_reverse]; omega
          · split at h
            · simp only [Option.some.injEq] at h; subst h
              simp only [List.length_reverse, List.length_cons]; omega
            · have := ih _ _ _ _ h
              simp only [List.length_cons] at this
              omega
        · exact absurd h (by simp)

/-- A successful trace extends the accumulator: the result is the
reversed accumulator followed by the newly emitted points. -/
theorem traceLine_acc (cfg : SimulationConfig) (s : SimState) (f : ℚ → ℚ) :
    ∀ (fuel : ℕ) (x y : ℚ) (acc res : List (ℚ × ℚ)),
      traceLine cfg s f fuel x y acc = some res →
      ∃ t, res = acc.reverse ++ t := by
  intro fuel
  induction fuel with
  | zero =>
    intro x y acc res h
    simp only [traceLine, Option.some.injEq] at h
    exact ⟨[], by simp [h.symm]⟩
  | succ fuel ih =>
    intro x y acc res h
    simp only [traceLine] at h
    split at h
    · simp only [Option.some.injEq] at h; exact ⟨[], by simp [h.symm]⟩
    · split at h
      · simp only [Option.some.injEq] at h; exact ⟨[], by simp [h.symm]⟩
      · split at h
        · split at h
          · simp only [Option.some.injEq] at h; exact ⟨[], by simp [h.symm]⟩
          · split at h
            · simp only [Option.some.injEq] at h
              exact ⟨[(x, y)], by simp [h.symm]⟩
            · obtain ⟨t, ht⟩ := ih _ _ _ _ h
              exact ⟨(x, y) :: t, by simp [ht]⟩
        · exact absurd h (by simp)

/-- A successful trace from an empty accumulator either emits nothing or
starts with its seed point. -/
theorem traceLine_head (cfg : SimulationConfig) (s : SimState) (f : ℚ → ℚ)
    (fuel : ℕ) (x y : ℚ) (res : List (ℚ × ℚ))
    (h : traceLine cfg s f fuel x y [] = some res) :
    res = [] ∨ ∃ t, res = (x, y) :: t := by
  cases fuel with
  | zero =>
    simp only [traceLine, Option.some.injEq] at h
    exact Or.inl h.symm
  | succ fuel =>
    simp only [traceLine] at h
    split at h
    · simp only [Option.some.injEq] at h; exact Or.inl h.symm
    · split at h
      · simp only [Option.some.injEq] at h; exact Or.inl h.symm
      · split at h
        · split at h
          · simp only [Option.some.injEq] at h; exact Or.inl h.symm
          · split at h
            · simp only [Option.some.injEq] at h
              exact Or.inr ⟨[], by simp [h.symm]⟩
            · obtain ⟨t, ht⟩ := traceLine_acc cfg s f _ _ _ _ _ h
              exact Or.inr ⟨t, by simpa using ht⟩
        · exact absurd h (by simp)

/-- Every line kept by the collection loop comes from a successful trace
of one of the seeds and has more than 2 points. -/
theorem collectStreamlines_mem (cfg : SimulationConfig) (s : SimState)
    (f : ℚ → ℚ) :
    ∀ (seeds : List ℚ) (lines : List (List (ℚ × ℚ))),
      collectStreamlines cfg s f seeds = some lines →
      ∀ line ∈ lines, 2 < line.length ∧
        ∃ ys ∈ seeds, traceLine cfg s f 200 (1/20) ys [] = some line := by
  intro seeds
  induction seeds with
  | nil =>
    intro lines h line hl
    simp only [collectStreamlines, Option.some.injEq] at h
    subst h; simp at hl
  | cons ys rest ih =>
    intro lines h line hl
    simp only [collectStreamlines] at h
    split at h
    · exact absurd h (by simp)
    · rename_i line0 htr
      split at h
      · exact absurd h (by simp)
      · rename_i acc hacc
        simp only [Option.some.injEq] at h
        subst h
        split at hl
        · rename_i hlen
          rcases List.mem_cons.mp hl with rfl | hmem
          · exact ⟨hlen, ys, List.mem_cons_self _ _, htr⟩
          · obtain ⟨h2, ys', hys', htr'⟩ := ih acc hacc line hmem
            exact ⟨h2, ys', List.mem_cons_of_mem _ hys', htr'⟩
        · obtain ⟨h2, ys', hys', htr'⟩ := ih acc hacc line hl
          exact ⟨h2, ys', List.mem_cons_of_mem _ hys', htr'⟩

/-- Every seed produced by `np.linspace(0.1, 0.9, n)` lies in
`[0.1, 0.9]`. -/
theorem linspaceQ_mem_bounds (n : ℕ) (ys : ℚ)
    (h : ys ∈ linspaceQ (1/10) (9/10) n) : 1/10 ≤ ys ∧ ys ≤ 9/10 := by
  unfold linspaceQ at h
  split at h
  · simp at h
  · split at h
    · rw [List.mem_singleton] at h
      subst h; norm_num
    · rename_i hn0 hn1
      rw [List.mem_map] at h
      obtain ⟨k, hk, rfl⟩ := h
      rw [List.mem_range] at hk
      have hn2 : 2 ≤ n := by omega
      have hpos : (0:ℚ) < (n:ℚ) - 1 := by
        have h2 : (2:ℚ) ≤ (n:ℚ) := by exact_mod_cast hn2
        linarith
      have hstep : (0:ℚ) ≤ (9/10 - 1/10) / ((n:ℚ) - 1) :=
        div_nonneg (by norm_num) (le_of_lt hpos)
      constructor
      · have hkd : (0:ℚ) ≤ (k:ℚ) * ((9/10 - 1/10) / ((n:ℚ) - 1)) :=
          mul_nonneg (Nat.cast_nonneg k) hstep
        linarith
      · have hkq : (k:ℚ) + 1 ≤ (n:ℚ) := by exact_mod_cast Nat.succ_le_of_lt hk
        have hk' : (k:ℚ) ≤ (n:ℚ) - 1 := by linarith
        have hmul := mul_le_mul_of_nonneg_right hk' hstep
        have heq : ((n:ℚ) - 1) * ((9/10 - 1/10) / ((n:ℚ) - 1)) = 9/10 - 1/10 := by
          field_simp
          ring
        linarith

set_option maxRecDepth 100000

/-- C8 counterexample: the tracer does NOT terminate when a point exits
the unit square to the left.  With the leftward field, the line seeded
at `(0.05, 0.1)` is emitted with 16 points, ten of which have `x < 0`
(the grid lookup truncates toward zero and then wraps numpy-style, so
tracing simply continues past the left edge). -/
theorem c8_counterexample :
    getStreamlines cfgGrid10 stateLeftward sqrtLeftward 1 = some [negLine] ∧
    negLine.length = 16 ∧
    (negLine.filter fun pt => decide (pt.1 < 0)).length = 10 := by
  refine ⟨by with_unfolding_all decide, by with_unfolding_all decide,
    by with_unfolding_all decide⟩

/-- C8 as amended: `get_streamlines(num_lines)` seeds `num_lines` points
at `x = 0.05` with `y` evenly spaced in `[0.1, 0.9]`, advances each
point by `velocity · (0.01/|velocity|)` per step, emits at most 200
points per line, terminates a line early when `x ≥ 1.0` (right exit),
`y ≤ 0`, `y ≥ 1.0`, the point enters the obstacle mask, or the local
speed drops below `0.001` — but NOT on leftward exit (`x < 0`) — and
discards any line with 2 or fewer points.  Part (i): every returned
line has more than 2 and at most 200 points and starts at `(0.05, y)`
with `y ∈ [0.1, 0.9]`.  Part (ii), Scenario D: on the uniform field
`u = 1, v = 0` with no obstacle, the three seeded lines are straight
horizontal 95-point lines stepping `x` by `0.01` from `0.05` to `0.99`
(the next step reaches `x = 1.0` and terminates the trace). -/
theorem c8_streamlines (cfg : SimulationConfig) (s : SimState) (f : ℚ → ℚ)
    (n : ℕ) (lines : List (List (ℚ × ℚ)))
    (h : getStreamlines cfg s f n = some lines) :
    (∀ line ∈ lines, 2 < line.length ∧ line.length ≤ 200 ∧
      ∃ y, 1/10 ≤ y ∧ y ≤ 9/10 ∧ line.head? = some (1/20, y)) ∧
    getStreamlines cfgGrid10 stateUniform sqrtUniform 3 =
      some [lineAt (1/10), lineAt (1/2), lineAt (9/10)] ∧
    (∀ y, (lineAt y).length = 95 ∧ ∀ pt ∈ lineAt y, pt.2 = y) := by
  refine ⟨fun line hl => ?_, by with_unfolding_all decide, fun y => ?_⟩
  · obtain ⟨h2, ys, hys, htr⟩ :=
      collectStreamlines_mem cfg s f _ lines h line hl
    have hlen := traceLine_length cfg s f 200 (1/20) ys [] line htr
    refine ⟨h2, by simpa using hlen, ?_⟩
    obtain hnil | ⟨t, rfl⟩ := traceLine_head cfg s f 200 (1/20) ys line htr
    · subst hnil; simp at h2
    · obtain ⟨hy1, hy2⟩ := linspaceQ_mem_bounds n ys hys
      exact ⟨ys, hy1, hy2, rfl⟩
  · constructor
    · simp only [lineAt, List.length_map, List.length_range]
    · intro pt hpt
      simp only [lineAt, List.mem_map] at hpt
      obtain ⟨k, _, rfl⟩ := hpt
      rfl

/-- Witness for C8: the uniform-field call itself, with the middle line
examined. -/
theorem c8_streamlines_witness :
    getStreamlines cfgGrid10 stateUniform sqrtUniform 3 =
      some [lineAt (1/10), lineAt (1/2), lineAt (9/10)] ∧
    (2 < (lineAt (1/2)).length ∧ (lineAt (1/2)).length ≤ 200 ∧
      ∃ y, 1/10 ≤ y ∧ y ≤ 9/10 ∧ (lineAt (1/2)).head? = some (1/20, y)) := by
  have hcall : getStreamlines cfgGrid10 stateUniform sqrtUniform 3 =
      some [lineAt (1/10), lineAt (1/2), lineAt (9/10)] := by
    with_unfolding_all decide
  exact ⟨hcall, (c8_streamlines cfgGrid10 stateUniform sqrtUniform 3 _ hcall).1
    (lineAt (1/2)) (by simp)⟩

/-- C9 counterexample: the square mask is NOT the box clipped to the
grid: for the edge configuration (`cy = 0`, `radius = 2`) the cell
`(0,5)` lies in the box intersected with the grid, yet the mask is false
there — the Python slice `-2:2` wraps its negative lower bound to `8`
and becomes empty. -/
theorem c9_counterexample :
    squareMask cfgSquareEdge 0 5 = false ∧ specSquareBox cfgSquareEdge 0 5 ∧
    0 < cfgSquareEdge.grid_size_y ∧ 5 < cfgSquareEdge.grid_size_x := by
  refine ⟨by with_unfolding_all decide, by with_unfolding_all decide,
    by norm_num [cfgSquareEdge], by norm_num [cfgSquareEdge]⟩

/-- C9 as amended: the square builder assigns
`mask[cy-radius:cy+radius, cx-radius:cx+radius] = True` with Python
slice semantics, which clips the box only at the HIGH grid edges; when a
lower bound is negative it wraps to `len+bound` (clamped), typically
yielding an empty or shifted region instead of the clipped box.  For
every configuration whose box does not cross the low edges
(`0 ≤ radius ≤ cx` and `radius ≤ cy`), the mask is exactly the box
intersected with the grid: `mask[j,i] ⟺ cy-radius ≤ j < cy+radius ∧
cx-radius ≤ i < cx+radius` for all grid cells `j < ny`, `i < nx`. -/
theorem c9_square_mask (cfg : SimulationConfig)
    (h0 : 0 ≤ obstacleRadius cfg)
    (hx : obstacleRadius cfg ≤ obstacleCx cfg)
    (hy : obstacleRadius cfg ≤ obstacleCy cfg)
    (j i : ℕ) (hj : j < cfg.grid_size_y) (hi : i < cfg.grid_size_x) :
    squareMask cfg j i = true ↔ specSquareBox cfg j i := by
  simp only [squareMask, inPySlice, specSquareBox, pySliceLo,
    Bool.and_eq_true, decide_eq_true_eq]
  split_ifs <;> omega

/-- Witness for the amended C9: the centred 10×10 square configuration
at cell `(3,3)` (inside the box). -/
theorem c9_square_mask_witness :
    (0 ≤ obstacleRadius cfgSquareMid ∧
      obstacleRadius cfgSquareMid ≤ obstacleCx cfgSquareMid ∧
      obstacleRadius cfgSquareMid ≤ obstacleCy cfgSquareMid) ∧
    (squareMask cfgSquareMid 3 3 = true ↔ specSquareBox cfgSquareMid 3 3) ∧
    squareMask cfgSquareMid 3 3 = true :=
  ⟨⟨by with_unfolding_all decide, by with_unfolding_all decide,
      by with_unfolding_all decide⟩,
    c9_square_mask cfgSquareMid (by with_unfolding_all decide)
      (by with_unfolding_all decide) (by with_unfolding_all decide) 3 3
      (by norm_num [cfgSquareMid]) (by norm_num [cfgSquareMid]),
    by with_unfolding_all decide⟩

end SyncCFD
